import Mathlib

/-!
Verification of the Lem tunnel core: frame codec, HTTP proxy correlation,
WebSocket proxying and the browser-side relay-fallback state machine.

Strings that travel on the wire (HTTP method, path, headers JSON, bodies,
URLs, close reasons) are represented by their UTF-8 byte sequences as
`List Nat` (each element a byte).  The serializers mirror the sequential
`DataView` writes of the TypeScript source: `setUintN(offset, x, false)`
writes the big-endian bytes of `x mod 2^N`, and `Uint8Array.set` appends
the content bytes verbatim.  The deserializers mirror the sequential
reads; a `DataView`/`Uint8Array` out-of-bounds access throws a
`RangeError`, modelled as `DecodeError.rangeError`, and a leading byte of
the wrong frame type throws the distinct "Expected ... frame" error,
modelled as `DecodeError.unknownFrameType`.
-/

namespace LemTunnel

/-- Errors thrown by the frame deserializers. -/
inductive DecodeError where
  | unknownFrameType (expected got : Nat)
  | rangeError
deriving Repr, DecidableEq

/-- Frame type constants (src `FrameType`). -/
def FrameType.HTTP_REQUEST : Nat := 0x01

def FrameType.HTTP_RESPONSE : Nat := 0x02

def FrameType.WS_CONNECT : Nat := 0x10

def FrameType.WS_DATA : Nat := 0x11

def FrameType.WS_CLOSE : Nat := 0x12

/-- `DataView.setUint8 x`: one byte, `x mod 256`. -/
def u8 (n : Nat) : List Nat := [n % 256]

/-- `DataView.setUint16 x false`: big-endian bytes of `x mod 2^16`. -/
def u16be (n : Nat) : List Nat := [n / 256 % 256, n % 256]

/-- `DataView.setUint32 x false`: big-endian bytes of `x mod 2^32`. -/
def u32be (n : Nat) : List Nat :=
  [n / 16777216 % 256, n / 65536 % 256, n / 256 % 256, n % 256]

/-- `DataView.getUint8` at the read cursor; out of bounds throws. -/
def readU8 : List Nat → Except DecodeError (Nat × List Nat)
  | b :: rest => .ok (b, rest)
  | [] => .error .rangeError

/-- `DataView.getUint16 _ false` (big-endian); out of bounds throws. -/
def readU16 : List Nat → Except DecodeError (Nat × List Nat)
  | b1 :: b0 :: rest => .ok (b1 * 256 + b0, rest)
  | _ => .error .rangeError

/-- `DataView.getUint32 _ false` (big-endian); out of bounds throws. -/
def readU32 : List Nat → Except DecodeError (Nat × List Nat)
  | b3 :: b2 :: b1 :: b0 :: rest => .ok (((b3 * 256 + b2) * 256 + b1) * 256 + b0, rest)
  | _ => .error .rangeError

/-- `new Uint8Array(buffer, offset, len)`: throws when the requested
window exceeds the buffer. -/
def readBytes (n : Nat) (l : List Nat) : Except DecodeError (List Nat × List Nat) :=
  if n ≤ l.length then .ok (l.take n, l.drop n) else .error .rangeError

/-- `buffer.slice(offset, offset + len)`: clamps to the end of the
buffer instead of throwing (used only by `deserializeWSData`). -/
def readSlice (n : Nat) (l : List Nat) : List Nat × List Nat :=
  (l.take n, l.drop n)

/-- HTTP request frame (fields already UTF-8 encoded). -/
structure HTTPRequestFrame where
  requestId : Nat
  method : List Nat
  path : List Nat
  headersJson : List Nat
  body : List Nat
deriving Repr, DecidableEq

/-- HTTP response frame. -/
structure HTTPResponseFrame where
  requestId : Nat
  statusCode : Nat
  headersJson : List Nat
  body : List Nat
deriving Repr, DecidableEq

/-- WebSocket CONNECT frame. -/
structure WSConnectFrame where
  connectionId : Nat
  url : List Nat
  headersJson : List Nat
deriving Repr, DecidableEq

/-- WebSocket DATA frame. -/
structure WSDataFrame where
  connectionId : Nat
  opcode : Nat
  payload : List Nat
deriving Repr, DecidableEq

/-- WebSocket CLOSE frame. -/
structure WSCloseFrame where
  connectionId : Nat
  closeCode : Nat
  reason : List Nat
deriving Repr, DecidableEq

/-- `serializeRequest` (src/unnamed/part_004 lines 92-149). -/
def serializeRequest (f : HTTPRequestFrame) : List Nat :=
  u8 FrameType.HTTP_REQUEST ++ u32be f.requestId ++
  u16be f.method.length ++ f.method ++
  u16be f.path.length ++ f.path ++
  u32be f.headersJson.length ++ f.headersJson ++
  u32be f.body.length ++ f.body

/-- `serializeResponse` (src/unnamed/part_004 lines 199-243). -/
def serializeResponse (f : HTTPResponseFrame) : List Nat :=
  u8 FrameType.HTTP_RESPONSE ++ u32be f.requestId ++
  u16be f.statusCode ++
  u32be f.headersJson.length ++ f.headersJson ++
  u32be f.body.length ++ f.body

/-- `serializeWSConnect` (websocket-intercept.ts lines 246-285). -/
def serializeWSConnect (f : WSConnectFrame) : List Nat :=
  u8 FrameType.WS_CONNECT ++ u32be f.connectionId ++
  u16be f.url.length ++ f.url ++
  u32be f.headersJson.length ++ f.headersJson

/-- `serializeWSData` (websocket-intercept.ts lines 330-364). -/
def serializeWSData (f : WSDataFrame) : List Nat :=
  u8 FrameType.WS_DATA ++ u32be f.connectionId ++
  u8 f.opcode ++
  u32be f.payload.length ++ f.payload

/-- `serializeWSClose` (websocket-intercept.ts lines 404-439). -/
def serializeWSClose (f : WSCloseFrame) : List Nat :=
  u8 FrameType.WS_CLOSE ++ u32be f.connectionId ++
  u16be f.closeCode ++
  u16be f.reason.length ++ f.reason

/-- `deserializeRequest` (src/unnamed/part_004 lines 248-299). -/
def deserializeRequest (buf : List Nat) : Except DecodeError HTTPRequestFrame := do
  let (frameType, r0) ← readU8 buf
  if frameType = FrameType.HTTP_REQUEST then do
    let (requestId, r1) ← readU32 r0
    let (methodLen, r2) ← readU16 r1
    let (method, r3) ← readBytes methodLen r2
    let (pathLen, r4) ← readU16 r3
    let (path, r5) ← readBytes pathLen r4
    let (headersLen, r6) ← readU32 r5
    let (headersJson, r7) ← readBytes headersLen r6
    let (bodyLen, r8) ← readU32 r7
    let (body, _) ← readBytes bodyLen r8
    pure { requestId := requestId, method := method, path := path,
           headersJson := headersJson, body := body }
  else
    throw (.unknownFrameType FrameType.HTTP_REQUEST frameType)

/-- `deserializeResponse` (src/unnamed/part_004 lines 154-194). -/
def deserializeResponse (buf : List Nat) : Except DecodeError HTTPResponseFrame := do
  let (frameType, r0) ← readU8 buf
  if frameType = FrameType.HTTP_RESPONSE then do
    let (requestId, r1) ← readU32 r0
    let (statusCode, r2) ← readU16 r1
    let (headersLen, r3) ← readU32 r2
    let (headersJson, r4) ← readBytes headersLen r3
    let (bodyLen, r5) ← readU32 r4
    let (body, _) ← readBytes bodyLen r5
    pure { requestId := requestId, statusCode := statusCode,
           headersJson := headersJson, body := body }
  else
    throw (.unknownFrameType FrameType.HTTP_RESPONSE frameType)

/-- `deserializeWSConnect` (websocket-intercept.ts lines 290-325). -/
def deserializeWSConnect (buf : List Nat) : Except DecodeError WSConnectFrame := do
  let (frameType, r0) ← readU8 buf
  if frameType = FrameType.WS_CONNECT then do
    let (connectionId, r1) ← readU32 r0
    let (urlLen, r2) ← readU16 r1
    let (url, r3) ← readBytes urlLen r2
    let (headersLen, r4) ← readU32 r3
    let (headersJson, _) ← readBytes headersLen r4
    pure { connectionId := connectionId, url := url, headersJson := headersJson }
  else
    throw (.unknownFrameType FrameType.WS_CONNECT frameType)

/-- `deserializeWSData` (websocket-intercept.ts lines 369-399); the
payload is extracted with `buffer.slice`, which clamps. -/
def deserializeWSData (buf : List Nat) : Except DecodeError WSDataFrame := do
  let (frameType, r0) ← readU8 buf
  if frameType = FrameType.WS_DATA then do
    let (connectionId, r1) ← readU32 r0
    let (opcode, r2) ← readU8 r1
    let (payloadLen, r3) ← readU32 r2
    let (payload, _) := readSlice payloadLen r3
    pure { connectionId := connectionId, opcode := opcode, payload := payload }
  else
    throw (.unknownFrameType FrameType.WS_DATA frameType)

/-- `deserializeWSClose` (websocket-intercept.ts lines 444-475). -/
def deserializeWSClose (buf : List Nat) : Except DecodeError WSCloseFrame := do
  let (frameType, r0) ← readU8 buf
  if frameType = FrameType.WS_CLOSE then do
    let (connectionId, r1) ← readU32 r0
    let (closeCode, r2) ← readU16 r1
    let (reasonLen, r3) ← readU16 r2
    let (reason, _) ← readBytes reasonLen r3
    pure { connectionId := connectionId, closeCode := closeCode, reason := reason }
  else
    throw (.unknownFrameType FrameType.WS_CLOSE frameType)

/-- All elements are bytes (what `TextEncoder` produces). -/
def ValidBytes (l : List Nat) : Prop := ∀ b ∈ l, b < 256

instance (l : List Nat) : Decidable (ValidBytes l) :=
  List.decidableBAll _ l

/-- A request frame representable on the wire. -/
def ValidRequestFrame (f : HTTPRequestFrame) : Prop :=
  f.requestId < 4294967296 ∧ f.method.length < 65536 ∧ f.path.length < 65536 ∧
  f.headersJson.length < 4294967296 ∧ f.body.length < 4294967296 ∧
  ValidBytes f.method ∧ ValidBytes f.path ∧ ValidBytes f.headersJson ∧ ValidBytes f.body

/-- A response frame representable on the wire. -/
def ValidResponseFrame (f : HTTPResponseFrame) : Prop :=
  f.requestId < 4294967296 ∧ f.statusCode < 65536 ∧
  f.headersJson.length < 4294967296 ∧ f.body.length < 4294967296 ∧
  ValidBytes f.headersJson ∧ ValidBytes f.body

/-- A WS_CONNECT frame representable on the wire. -/
def ValidWSConnectFrame (f : WSConnectFrame) : Prop :=
  f.connectionId < 4294967296 ∧ f.url.length < 65536 ∧
  f.headersJson.length < 4294967296 ∧
  ValidBytes f.url ∧ ValidBytes f.headersJson

/-- A WS_DATA frame representable on the wire. -/
def ValidWSDataFrame (f : WSDataFrame) : Prop :=
  f.connectionId < 4294967296 ∧ f.opcode < 256 ∧
  f.payload.length < 4294967296 ∧ ValidBytes f.payload

/-- A WS_CLOSE frame representable on the wire. -/
def ValidWSCloseFrame (f : WSCloseFrame) : Prop :=
  f.connectionId < 4294967296 ∧ f.closeCode < 65536 ∧
  f.reason.length < 65536 ∧ ValidBytes f.reason

instance (f : HTTPRequestFrame) : Decidable (ValidRequestFrame f) := by
  unfold ValidRequestFrame; infer_instance

instance (f : HTTPResponseFrame) : Decidable (ValidResponseFrame f) := by
  unfold ValidResponseFrame; infer_instance

instance (f : WSConnectFrame) : Decidable (ValidWSConnectFrame f) := by
  unfold ValidWSConnectFrame; infer_instance

instance (f : WSDataFrame) : Decidable (ValidWSDataFrame f) := by
  unfold ValidWSDataFrame; infer_instance

instance (f : WSCloseFrame) : Decidable (ValidWSCloseFrame f) := by
  unfold ValidWSCloseFrame; infer_instance

/-!
## HTTP proxy (proxy-fetch.ts, class `HTTPProxy`)

`pendingRequests` is modelled as the list of its entries; an entry
records the request id and the absolute time at which its 30 s timer
was armed to fire.  `fetch` is modelled as one atomic step of the
promise executor; the caller-observable result of the returned promise
is a `FetchResult`.
-/

/-- One entry of `pendingRequests`, keyed by request id; `deadline` is
the absolute fire time of the `setTimeout` armed for it. -/
structure PendingEntry where
  id : Nat
  deadline : Nat
deriving Repr, DecidableEq

/-- The mutable fields of `HTTPProxy` relevant to correlation. -/
structure HTTPProxyState where
  nextRequestId : Nat
  pending : List PendingEntry
deriving Repr, DecidableEq

/-- A freshly constructed `HTTPProxy`: `nextRequestId = 1`, empty map. -/
def initialProxyState : HTTPProxyState := ⟨1, []⟩

/-- The hardcoded `setTimeout(..., 30000)` literal in `fetch`. -/
def REQUEST_TIMEOUT_MS : Nat := 30000

/-- The parts of the `RequestInit` argument that reach the wire
(method, flattened headers as JSON bytes, body as UTF-8 text).  There
is no timeout field: `fetch(url, init)` accepts none. -/
structure RequestInitModel where
  method : List Nat
  headersJson : List Nat
  body : List Nat
deriving Repr, DecidableEq

/-- The caller-observable disposition of the promise returned by
`fetch` at the end of the executor. -/
inductive FetchResult where
  | pendingResult
  | transportNotOpen
  | sendFailed
deriving Repr, DecidableEq

/-- `HTTPProxy.fetch` (proxy-fetch.ts lines 100-207): allocate
`requestId = nextRequestId++`, serialize the frame, register the
pending entry and arm the 30 s timer; if the transport is not open,
clear the timer, delete the entry and reject with 'Transport not open';
if `sendData` throws, the catch deletes the entry and rejects, but the
executor then falls through to the re-registration at lines 195-205, so
the entry is present again (with its timer cleared) when the call
returns; otherwise the frame is sent and the entry stays pending.
Returns (new state, allocated id, promise disposition, frames sent). -/
def fetchStep (st : HTTPProxyState) (path : List Nat) (init : RequestInitModel)
    (transportOpen sendOk : Bool) (now : Nat) :
    HTTPProxyState × Nat × FetchResult × List (List Nat) :=
  let requestId := st.nextRequestId
  let frame := serializeRequest ⟨requestId, init.method, path, init.headersJson, init.body⟩
  let registered : List PendingEntry := st.pending ++ [⟨requestId, now + REQUEST_TIMEOUT_MS⟩]
  if !transportOpen then
    (⟨requestId + 1, registered.filter (fun e => e.id != requestId)⟩,
     requestId, .transportNotOpen, [])
  else if !sendOk then
    (⟨requestId + 1,
      registered.filter (fun e => e.id != requestId) ++
        [⟨requestId, now + REQUEST_TIMEOUT_MS⟩]⟩,
     requestId, .sendFailed, [])
  else
    (⟨requestId + 1, registered⟩, requestId, .pendingResult, [frame])

/-- `HTTPProxy.handleResponse` (proxy-fetch.ts lines 214-236):
deserialize; on error log and return; if no entry matches the request
id, log and drop; otherwise delete the entry and resolve it. -/
def handleResponseStep (st : HTTPProxyState) (buffer : List Nat) : HTTPProxyState :=
  match deserializeResponse buffer with
  | .error _ => st
  | .ok frame =>
    if st.pending.any (fun e => e.id == frame.requestId) then
      { st with pending := st.pending.filter (fun e => e.id != frame.requestId) }
    else st

/-- The `setTimeout` arm of `fetch` (lines 171-174): delete the entry
and reject with 'Request timeout'.  The Bool reports whether a live
entry was failed. -/
def fireTimeout (st : HTTPProxyState) (id : Nat) : HTTPProxyState × Bool :=
  ({ st with pending := st.pending.filter (fun e => e.id != id) },
   st.pending.any (fun e => e.id == id))

/-- `HTTPProxy.clearPending` (proxy-fetch.ts lines 258-263): reject
every pending entry with 'Connection closed' and clear the map.
Returns the ids so rejected.  This method has no caller anywhere in the
repository. -/
def clearPending (st : HTTPProxyState) : HTTPProxyState × List Nat :=
  ({ st with pending := [] }, st.pending.map (fun e => e.id))

/-- The operations that touch `HTTPProxy` state during one transport's
lifetime.  `setTransportOp` models `setTransport` (lines 91-93), which
swaps the transport object and touches neither the counter nor the
map. -/
inductive ProxyOp where
  | fetchOp (path : List Nat) (init : RequestInitModel) (transportOpen sendOk : Bool) (now : Nat)
  | responseOp (buffer : List Nat)
  | timeoutOp (id : Nat)
  | clearOp
  | setTransportOp
deriving Repr

/-- Apply one operation; returns the ids allocated by it. -/
def applyOp (st : HTTPProxyState) : ProxyOp → HTTPProxyState × List Nat
  | .fetchOp path init topen sok now =>
      ((fetchStep st path init topen sok now).1, [(fetchStep st path init topen sok now).2.1])
  | .responseOp buffer => (handleResponseStep st buffer, [])
  | .timeoutOp id => ((fireTimeout st id).1, [])
  | .clearOp => ((clearPending st).1, [])
  | .setTransportOp => (st, [])

/-- Run a sequence of operations, collecting allocated ids in order. -/
def runOps (st : HTTPProxyState) : List ProxyOp → HTTPProxyState × List Nat
  | [] => (st, [])
  | op :: ops =>
      ((runOps (applyOp st op).1 ops).1, (applyOp st op).2 ++ (runOps (applyOp st op).1 ops).2)

/-- Number of `fetch` calls in an operation sequence. -/
def countFetches : List ProxyOp → Nat
  | [] => 0
  | .fetchOp _ _ _ _ _ :: ops => countFetches ops + 1
  | .responseOp _ :: ops => countFetches ops
  | .timeoutOp _ :: ops => countFetches ops
  | .clearOp :: ops => countFetches ops
  | .setTransportOp :: ops => countFetches ops

/-- Invariant of `HTTPProxy`: every pending id was allocated before the
counter's current value. -/
def WFProxy (st : HTTPProxyState) : Prop :=
  ∀ e ∈ st.pending, e.id < st.nextRequestId

instance (st : HTTPProxyState) : Decidable (WFProxy st) :=
  List.decidableBAll _ st.pending

/-- The endpoint-side state torn down by the `useWebRTC` effect
cleanup. -/
structure TunnelEndpointState where
  proxy : HTTPProxyState
  wsConnections : List Nat
  pollingActive : Bool
  managerConnected : Bool
  relayConnected : Bool
deriving Repr, DecidableEq

/-- The effect cleanup of `useWebRTC` (hooks/useWebRTC.ts lines
255-269) — the transport-death path: `clearInterval(pollingInterval)`;
`wsProxyManager.closeAll()`; `managerRef.disconnect()`;
`relayClientRef.disconnect()`.  None of these calls reaches
`HTTPProxy.clearPending` (which has no caller in the repository), so
the pending-request map is left untouched. -/
def useWebRTCCleanup (st : TunnelEndpointState) : TunnelEndpointState :=
  { st with pollingActive := false,
            wsConnections := [],
            managerConnected := false,
            relayConnected := false }

/-!
## WebSocket proxy (src/unnamed/part_005, classes `ProxiedWebSocket`
and `WSProxyManager`)
-/

/-- `ProxiedWSState` (readyState values). -/
inductive ProxiedWSState where
  | CONNECTING
  | OPEN
  | CLOSING
  | CLOSED
deriving Repr, DecidableEq

/-- Events fired on the WebSocket-shaped surface object. -/
inductive WSEventOut where
  | openEvent
  | messageEvent (data : List Nat)
  | closeEvent (code : Nat) (reason : List Nat) (wasClean : Bool)
  | errorEvent
deriving Repr, DecidableEq

/-- The state of one `ProxiedWebSocket`. -/
structure ProxiedWebSocket where
  connectionId : Nat
  readyState : ProxiedWSState
deriving Repr, DecidableEq

/-- UTF-8 bytes of the message of the error thrown by
`WebRTCConnectionManager.sendData` when the channel is down
('DataChannel not open'). -/
def dataChannelNotOpenMsg : List Nat :=
  [68, 97, 116, 97, 67, 104, 97, 110, 110, 101, 108, 32, 110, 111, 116, 32, 111, 112, 101, 110]

/-- `ProxiedWebSocket.handleClose` (part_005 lines 265-281): ignore a
frame for another connection id; otherwise set readyState to CLOSED and
fire the close event with the frame's code and reason (`wasClean` iff
code 1000). -/
def ProxiedWebSocket.handleClose (ws : ProxiedWebSocket) (frame : WSCloseFrame) :
    ProxiedWebSocket × List WSEventOut :=
  if frame.connectionId != ws.connectionId then (ws, [])
  else ({ ws with readyState := .CLOSED },
        [.closeEvent frame.closeCode frame.reason (frame.closeCode == 1000)])

/-- `ProxiedWebSocket.close` (part_005 lines 204-226): no-op when
already CLOSING or CLOSED; otherwise set readyState to CLOSING, send a
WS_CLOSE frame and immediately call `handleClose` on the same frame
("Transition to CLOSED immediately (server will acknowledge)").  When
the DataChannel is down, `sendData` throws and the catch runs
`handleError`: an error event, then `handleClose` with code 1006 and
the error message as reason.  Returns (state, frames sent, events
fired). -/
def ProxiedWebSocket.close (ws : ProxiedWebSocket) (channelOpen : Bool)
    (code : Nat) (reason : List Nat) :
    ProxiedWebSocket × List (List Nat) × List WSEventOut :=
  if ws.readyState == .CLOSING || ws.readyState == .CLOSED then (ws, [], [])
  else
    let ws1 : ProxiedWebSocket := { ws with readyState := .CLOSING }
    if channelOpen then
      ((ws1.handleClose ⟨ws.connectionId, code, reason⟩).1,
       [serializeWSClose ⟨ws.connectionId, code, reason⟩],
       (ws1.handleClose ⟨ws.connectionId, code, reason⟩).2)
    else
      ((ws1.handleClose ⟨ws.connectionId, 1006, dataChannelNotOpenMsg⟩).1,
       [],
       .errorEvent :: (ws1.handleClose ⟨ws.connectionId, 1006, dataChannelNotOpenMsg⟩).2)

/-!
## WebSocket interception (websocket-intercept.ts lines 46-130)
-/

/-- JS `String.prototype.includes` on character lists. -/
def hasSub (needle : List Char) : List Char → Bool
  | [] => needle.isEmpty
  | c :: t => needle.isPrefixOf (c :: t) || hasSub needle t

/-- The control-channel path fragment tested by
`wsUrl.pathname.includes` in `shouldProxyWebSocket`. -/
def signalPathSeg : List Char := "/signal".toList

/-- The parsed parts of the candidate WebSocket URL that the intercept
inspects, plus its full UTF-8 bytes (used by the WS_CONNECT frame). -/
structure WSUrl where
  pathname : List Char
  hasClientParam : Bool
  urlBytes : List Nat
deriving Repr

/-- The page context: `new URLSearchParams(window.location.search).get('client')`. -/
structure PageContext where
  clientParam : Option String
deriving Repr

/-- `shouldProxyWebSocket` (websocket-intercept.ts lines 46-79): never
proxy a URL whose pathname contains '/signal'; proxy when the URL has a
`client` query parameter; otherwise proxy exactly when the page's
`client` parameter is truthy (a non-empty string). -/
def shouldProxyWebSocket (page : PageContext) (url : WSUrl) : Bool :=
  if hasSub signalPathSeg url.pathname then false
  else if url.hasClientParam then true
  else
    match page.clientParam with
    | some s => !(s == "")
    | none => false

/-- The mutable fields of `WSProxyManager`: the id counter and the keys
of the `connections` map. -/
structure WSProxyManagerState where
  nextConnectionId : Nat
  connections : List Nat
deriving Repr, DecidableEq

/-- What the intercepted constructor returns. -/
inductive ConstructedSocket where
  | native
  | proxied (connectionId : Nat)
deriving Repr, DecidableEq

/-- The wrapper constructor installed by `setupWebSocketIntercept`
(lines 100-119) combined with `WSProxyManager.createConnection`
(part_005 lines 374-382) and the `ProxiedWebSocket` constructor's
`sendConnectFrame` (part_005 lines 131-152): when the URL should be
proxied and a proxy manager is active, allocate
`connectionId = nextConnectionId++`, register it, and send a WS_CONNECT
frame (unless the DataChannel is down, in which case `sendConnectFrame`
reports an error and sends nothing); otherwise construct a native
WebSocket and touch nothing.  Returns (socket, manager state,
WS_CONNECT frames sent over the tunnel). -/
def interceptConstruct (page : PageContext) (url : WSUrl)
    (managerActive channelOpen : Bool) (protocolHeadersJson : List Nat)
    (st : WSProxyManagerState) :
    ConstructedSocket × WSProxyManagerState × List WSConnectFrame :=
  if shouldProxyWebSocket page url && managerActive then
    let id := st.nextConnectionId
    let st' : WSProxyManagerState := ⟨id + 1, st.connections ++ [id]⟩
    if channelOpen then
      (.proxied id, st', [⟨id, url.urlBytes, protocolHeadersJson⟩])
    else
      (.proxied id, st', [])
  else
    (.native, st, [])

/-!
## Relay fallback (hooks/useWebRTC.ts lines 88-305, lib/webrtc.ts
`sendConnectRequest`, lib/relay-client.ts `connect`)
-/

/-- `ConnectionState` (api/types.ts line 180). -/
inductive ConnectionState where
  | disconnected
  | connecting
  | connected
  | failed
  | closed
deriving Repr, DecidableEq

/-- `ConnectionMode` (useWebRTC.ts line 41). -/
inductive ConnectionMode where
  | webrtc
  | relay
deriving Repr, DecidableEq

/-- `preferred_transport` values (api types). -/
inductive TransportPref where
  | webrtc
  | relay
  | auto
deriving Repr, DecidableEq

/-- `status` values of a connect-ack. -/
inductive AckStatus where
  | connecting
  | connected
  | failed
deriving Repr, DecidableEq

/-- The `connect-request` signaling message built by
`sendConnectRequest` (webrtc.ts lines 327-333). -/
structure ConnectRequestMsg where
  targetDeviceId : String
  preferredTransport : TransportPref
  relaySessionId : Option String
deriving Repr, DecidableEq

/-- The externally observable actions of the fallback path, in program
order. -/
inductive HookAction where
  | setConnectionMode (m : ConnectionMode)
  | sendSignal (msg : ConnectRequestMsg)
  | setConnState (s : ConnectionState)
  | openRelaySocket (sessionId : String)
  | setHttpProxyTransportRelay
  | updateWSProxyManagerRelay
  | setErrorAction
  | clearErrorAction
  | connectSignalingOnly
deriving Repr, DecidableEq

/-- `CONNECT_ACK_TIMEOUT_MS` (webrtc.ts line 92). -/
def CONNECT_ACK_TIMEOUT_MS : Nat := 30000

/-- `generateSessionId` (useWebRTC.ts lines 47-49). -/
def generateSessionId (browserDeviceId targetDeviceId : String) : String :=
  browserDeviceId ++ "-" ++ targetDeviceId

/-- The await inside `sendConnectRequest`: a `connect-ack-received`
arriving `t` ms after the request resolves the promise only if the 30 s
timer has not fired first; no arrival, or a late arrival, rejects with
'Connect-ack timeout (30s)'. -/
def awaitConnectAck (ackArrival : Option (Nat × AckStatus)) : Option AckStatus :=
  match ackArrival with
  | some (t, s) => if t < CONNECT_ACK_TIMEOUT_MS then some s else none
  | none => none

/-- `fallbackToRelay` (useWebRTC.ts lines 177-250): set the mode to
relay; send the `connect-request` with `preferred_transport='relay'`
and the computed session id and await the ack.  On timeout or
`status='failed'` the thrown error is caught and recorded with
`setError` — the relay socket is never dialled and no connection-state
transition happens.  Otherwise `RelayClient.connect()` runs
(`setState('connecting')`, dial, on open `setState('connected')`), the
HTTP proxy transport is switched to the relay, the WS proxy manager is
updated, and the error is cleared; a dial failure sets state `failed`
and records the error. -/
def fallbackToRelay (deviceId targetDeviceId : String)
    (ackArrival : Option (Nat × AckStatus)) (relayDialOk : Bool) : List HookAction :=
  let sessionId := generateSessionId deviceId targetDeviceId
  HookAction.setConnectionMode .relay ::
  HookAction.sendSignal ⟨targetDeviceId, .relay, some sessionId⟩ ::
  match awaitConnectAck ackArrival with
  | none => [HookAction.setErrorAction]
  | some .failed => [HookAction.setErrorAction]
  | some _ =>
    if relayDialOk then
      [HookAction.setConnState .connecting,
       HookAction.openRelaySocket sessionId,
       HookAction.setConnState .connected,
       HookAction.setHttpProxyTransportRelay,
       HookAction.updateWSProxyManagerRelay,
       HookAction.clearErrorAction]
    else
      [HookAction.setConnState .connecting,
       HookAction.openRelaySocket sessionId,
       HookAction.setConnState .failed,
       HookAction.setErrorAction]

/-- The failure-counting branch of the `onStateChange` callback
(useWebRTC.ts lines 102-119): on a `failed` state, when not already in
relay fallback, increment the counter; at 3 or more, latch the fallback
flag and fire the fallback.  Returns (updated refs, whether
`fallbackToRelay` fires now). -/
structure FallbackCtl where
  failureCount : Nat
  isRelayFallback : Bool
deriving Repr, DecidableEq

def onStateChangeFailure (c : FallbackCtl) (s : ConnectionState) : FallbackCtl × Bool :=
  if s == .failed && !c.isRelayFallback then
    if c.failureCount + 1 ≥ 3 then (⟨c.failureCount + 1, true⟩, true)
    else (⟨c.failureCount + 1, c.isRelayFallback⟩, false)
  else (c, false)

/-- The `connect` callback (useWebRTC.ts lines 281-305) when the
platform has no `RTCPeerConnection`: latch the fallback flag, set relay
mode, connect to signaling only, then run the relay fallback. -/
def connectWithoutRTC (deviceId targetDeviceId : String)
    (ackArrival : Option (Nat × AckStatus)) (relayDialOk : Bool) : List HookAction :=
  HookAction.setConnectionMode .relay ::
  HookAction.connectSignalingOnly ::
  fallbackToRelay deviceId targetDeviceId ackArrival relayDialOk

/-- Every dial of the relay socket in a trace is preceded by a
`connect-request` with `preferred_transport=relay` carrying the same
session id. -/
def ConnectRequestPrecedesRelayDial (tr : List HookAction) : Prop :=
  ∀ n sid, tr.get? n = some (.openRelaySocket sid) →
    ∃ m, m < n ∧ ∃ msg, tr.get? m = some (.sendSignal msg) ∧
      msg.preferredTransport = .relay ∧ msg.relaySessionId = some sid

end LemTunnel

namespace LemTunnel

@[simp] theorem except_bind_ok {α β ε : Type} (a : α) (f : α → Except ε β) :
    (Except.ok a >>= f : Except ε β) = f a := rfl

@[simp] theorem except_throw {α ε : Type} (e : ε) :
    (throw e : Except ε α) = .error e := rfl

@[simp] theorem readU8_cons (b : Nat) (rest : List Nat) :
    readU8 (b :: rest) = .ok (b, rest) := rfl

@[simp] theorem readU16_u16be (n : Nat) (rest : List Nat) (h : n < 65536) :
    readU16 (u16be n ++ rest) = .ok (n, rest) := by
  simp only [u16be, List.cons_append, List.nil_append, readU16, Except.ok.injEq, Prod.mk.injEq,
    and_true]
  omega

@[simp] theorem readU32_u32be (n : Nat) (rest : List Nat) (h : n < 4294967296) :
    readU32 (u32be n ++ rest) = .ok (n, rest) := by
  simp only [u32be, List.cons_append, List.nil_append, readU32, Except.ok.injEq, Prod.mk.injEq,
    and_true]
  omega

@[simp] theorem readBytes_exact (xs rest : List Nat) :
    readBytes xs.length (xs ++ rest) = .ok (xs, rest) := by
  simp [readBytes, List.take_left, List.drop_left]

@[simp] theorem readSlice_exact (xs rest : List Nat) :
    readSlice xs.length (xs ++ rest) = (xs, rest) := by
  simp [readSlice, List.take_left, List.drop_left]

@[simp] theorem readBytes_all (xs : List Nat) :
    readBytes xs.length xs = .ok (xs, []) := by
  simp [readBytes]

@[simp] theorem readSlice_all (xs : List Nat) :
    readSlice xs.length xs = (xs, []) := by
  simp [readSlice]

theorem roundtrip_request (f : HTTPRequestFrame) (h : ValidRequestFrame f) :
    deserializeRequest (serializeRequest f) = .ok f := by
  obtain ⟨h1, h2, h3, h4, h5, -⟩ := h
  simp [serializeRequest, deserializeRequest, u8, FrameType.HTTP_REQUEST, h1, h2, h3, h4, h5]

theorem roundtrip_response (f : HTTPResponseFrame) (h : ValidResponseFrame f) :
    deserializeResponse (serializeResponse f) = .ok f := by
  obtain ⟨h1, h2, h3, h4, -⟩ := h
  simp [serializeResponse, deserializeResponse, u8, FrameType.HTTP_RESPONSE, h1, h2, h3, h4]

theorem roundtrip_wsconnect (f : WSConnectFrame) (h : ValidWSConnectFrame f) :
    deserializeWSConnect (serializeWSConnect f) = .ok f := by
  obtain ⟨h1, h2, h3, -⟩ := h
  simp [serializeWSConnect, deserializeWSConnect, u8, FrameType.WS_CONNECT, h1, h2, h3]

theorem roundtrip_wsdata (f : WSDataFrame) (h : ValidWSDataFrame f) :
    deserializeWSData (serializeWSData f) = .ok f := by
  obtain ⟨h1, h2, h3, -⟩ := h
  simp [serializeWSData, deserializeWSData, u8, FrameType.WS_DATA, h1, h2, h3,
    Nat.mod_eq_of_lt h2]

theorem roundtrip_wsclose (f : WSCloseFrame) (h : ValidWSCloseFrame f) :
    deserializeWSClose (serializeWSClose f) = .ok f := by
  obtain ⟨h1, h2, h3, -⟩ := h
  simp [serializeWSClose, deserializeWSClose, u8, FrameType.WS_CLOSE, h1, h2, h3]

/-- Claim C1: for every valid frame value of each of the five frame types
(HTTP_REQUEST, HTTP_RESPONSE, WS_CONNECT, WS_DATA, WS_CLOSE),
deserializing the serialization yields a frame equal to the original,
including zero-length headers JSON, empty body, empty payload and empty
close reason. -/
theorem frame_codec_roundtrip :
    (∀ f : HTTPRequestFrame, ValidRequestFrame f →
      deserializeRequest (serializeRequest f) = .ok f) ∧
    (∀ f : HTTPResponseFrame, ValidResponseFrame f →
      deserializeResponse (serializeResponse f) = .ok f) ∧
    (∀ f : WSConnectFrame, ValidWSConnectFrame f →
      deserializeWSConnect (serializeWSConnect f) = .ok f) ∧
    (∀ f : WSDataFrame, ValidWSDataFrame f →
      deserializeWSData (serializeWSData f) = .ok f) ∧
    (∀ f : WSCloseFrame, ValidWSCloseFrame f →
      deserializeWSClose (serializeWSClose f) = .ok f) :=
  ⟨roundtrip_request, roundtrip_response, roundtrip_wsconnect,
   roundtrip_wsdata, roundtrip_wsclose⟩

/-- Witness for C1 at concrete frames: a GET "/" request with empty
headers object (bytes of the two-character JSON text) and empty body, a
200 response, a WS_CONNECT, an empty-payload WS_DATA and an
empty-reason WS_CLOSE. -/
theorem frame_codec_roundtrip_witness :
    deserializeRequest (serializeRequest ⟨1, [71, 69, 84], [47], [123, 125], []⟩) =
      .ok ⟨1, [71, 69, 84], [47], [123, 125], []⟩ ∧
    deserializeResponse (serializeResponse ⟨1, 200, [123, 125], []⟩) =
      .ok ⟨1, 200, [123, 125], []⟩ ∧
    deserializeWSConnect (serializeWSConnect ⟨1, [119, 115], [123, 125]⟩) =
      .ok ⟨1, [119, 115], [123, 125]⟩ ∧
    deserializeWSData (serializeWSData ⟨1, 1, []⟩) = .ok ⟨1, 1, []⟩ ∧
    deserializeWSClose (serializeWSClose ⟨1, 1000, []⟩) = .ok ⟨1, 1000, []⟩ :=
  ⟨frame_codec_roundtrip.1 _ (by decide),
   frame_codec_roundtrip.2.1 _ (by decide),
   frame_codec_roundtrip.2.2.1 _ (by decide),
   frame_codec_roundtrip.2.2.2.1 _ (by decide),
   frame_codec_roundtrip.2.2.2.2 _ (by decide)⟩

/-- Claim C7: the encoded length of every frame is exactly the type byte
plus the fixed field widths plus the byte lengths of the variable
fields, with no trailing padding (for HTTP_REQUEST:
1+4+2+|method|+2+|path|+4+|headers|+4+|body|); the multi-byte integer
fields are written big-endian by `u16be`/`u32be`, exactly as
`DataView.setUintN(_, _, false)` does in the source. -/
theorem frame_encoding_length :
    (∀ f : HTTPRequestFrame, (serializeRequest f).length =
      1 + 4 + 2 + f.method.length + 2 + f.path.length +
      4 + f.headersJson.length + 4 + f.body.length) ∧
    (∀ f : HTTPResponseFrame, (serializeResponse f).length =
      1 + 4 + 2 + 4 + f.headersJson.length + 4 + f.body.length) ∧
    (∀ f : WSConnectFrame, (serializeWSConnect f).length =
      1 + 4 + 2 + f.url.length + 4 + f.headersJson.length) ∧
    (∀ f : WSDataFrame, (serializeWSData f).length =
      1 + 4 + 1 + 4 + f.payload.length) ∧
    (∀ f : WSCloseFrame, (serializeWSClose f).length =
      1 + 4 + 2 + 2 + f.reason.length) := by
  refine ⟨?_, ?_, ?_, ?_, ?_⟩ <;> intro f <;>
    simp [serializeRequest, serializeResponse, serializeWSConnect, serializeWSData,
      serializeWSClose, u8, u16be, u32be] <;> omega

/-- Claim C5 counterexample: the one-byte buffer `[0x02]` has first byte
0x02 yet `deserializeResponse` refuses it (the `getUint32` read for the
request id overruns the buffer and throws a RangeError), so "a buffer
whose first byte is 0x02 is decoded as an HTTP_RESPONSE" is false as a
statement about every such buffer. -/
theorem response_decoder_truncated_counterexample :
    deserializeResponse [2] = .error .rangeError := rfl

/-- Claim C5 (amended): decoding any buffer whose first byte is a byte
other than 0x02 fails with the distinct UnknownFrameType error and never
returns a frame; and the serialization of every valid HTTP_RESPONSE
frame (a well-formed buffer with first byte 0x02) decodes to that
frame. -/
theorem response_decoder_type_check :
    (∀ b buf, b < 256 → b ≠ FrameType.HTTP_RESPONSE →
      deserializeResponse (b :: buf) =
        .error (.unknownFrameType FrameType.HTTP_RESPONSE b)) ∧
    (∀ f : HTTPResponseFrame, ValidResponseFrame f →
      deserializeResponse (serializeResponse f) = .ok f) := by
  constructor
  · intro b buf _ hne
    simp [deserializeResponse, hne]
  · exact roundtrip_response

/-- Witness for C5: byte 0x01 is refused with UnknownFrameType, and a
concrete 404 response round-trips. -/
theorem response_decoder_type_check_witness :
    deserializeResponse (1 :: []) =
      .error (.unknownFrameType FrameType.HTTP_RESPONSE 1) ∧
    deserializeResponse (serializeResponse ⟨5, 404, [123, 125], []⟩) =
      .ok ⟨5, 404, [123, 125], []⟩ :=
  ⟨response_decoder_type_check.1 1 [] (by decide) (by decide),
   response_decoder_type_check.2 _ (by decide)⟩

theorem filter_ne_of_wf (l : List PendingEntry) (k : Nat) (h : ∀ e ∈ l, e.id < k) :
    l.filter (fun e => e.id != k) = l := by
  induction l with
  | nil => rfl
  | cons e t ih =>
    have he : e.id < k := h e (by simp)
    have ht : ∀ x ∈ t, x.id < k := fun x hx => h x (by simp [hx])
    have hne : (e.id != k) = true := by simp [bne_iff_ne]; omega
    simp [List.filter_cons, hne, ih ht]

theorem fetch_not_open (st : HTTPProxyState) (path : List Nat) (init : RequestInitModel)
    (sok : Bool) (now : Nat) (h : WFProxy st) :
    fetchStep st path init false sok now =
      (⟨st.nextRequestId + 1, st.pending⟩, st.nextRequestId, .transportNotOpen, []) := by
  unfold fetchStep
  simp only [Bool.not_false, if_pos]
  rw [List.filter_append, filter_ne_of_wf st.pending st.nextRequestId h]
  simp

/-- Claim C10: a `fetch` while the transport is not open rejects with
the transport-not-open error synchronously, sends no frame, leaves the
pending map exactly as before the call (the freshly added entry is
removed before the executor returns), and still advances the
request-id counter. -/
theorem fetch_rejects_when_transport_closed :
    ∀ (st : HTTPProxyState) (path : List Nat) (init : RequestInitModel) (sok : Bool) (now : Nat),
      WFProxy st →
      fetchStep st path init false sok now =
        (⟨st.nextRequestId + 1, st.pending⟩, st.nextRequestId, .transportNotOpen, []) :=
  fun st path init sok now h => fetch_not_open st path init sok now h

/-- Witness for C10: on a proxy with one pending entry and counter 2, a
fetch over a closed transport leaves the entry alone, allocates id 2
and rejects. -/
theorem fetch_rejects_when_transport_closed_witness :
    fetchStep ⟨2, [⟨1, 30000⟩]⟩ [47] ⟨[71, 69, 84], [123, 125], []⟩ false true 0 =
      (⟨3, [⟨1, 30000⟩]⟩, 2, .transportNotOpen, []) :=
  fetch_rejects_when_transport_closed ⟨2, [⟨1, 30000⟩]⟩ [47]
    ⟨[71, 69, 84], [123, 125], []⟩ true 0 (by decide)

/-- Claim C6 counterexample (to the override clause): two fetches whose
`RequestInit` data differ in method and body both register a deadline
exactly 30000 ms after the call: `fetch(url, init)` exposes no timeout
parameter, so the 30 s default cannot be overridden by the caller. -/
theorem request_timeout_not_overridable_counterexample :
    (fetchStep initialProxyState [47] ⟨[71, 69, 84], [123, 125], []⟩ true true 0).1.pending =
      [⟨1, 30000⟩] ∧
    (fetchStep initialProxyState [47] ⟨[80, 79, 83, 84], [123, 125], [98]⟩ true true 0).1.pending =
      [⟨1, 30000⟩] := by decide

/-- Claim C6 (amended): every fetch over an open transport registers
its entry with a deadline exactly `REQUEST_TIMEOUT_MS = 30000` ms after
the call — independent of the request's `RequestInit` data, which
carries no timeout — and when the timer fires the entry is removed from
the pending map and failed with the RequestTimeout rejection (the
firing reports a live entry exactly when one with that id is
pending). -/
theorem request_timeout_semantics :
    (∀ (st : HTTPProxyState) (path : List Nat) (init : RequestInitModel) (sok : Bool) (now : Nat),
      WFProxy st →
      (fetchStep st path init true sok now).1.pending =
        st.pending ++ [⟨st.nextRequestId, now + REQUEST_TIMEOUT_MS⟩]) ∧
    REQUEST_TIMEOUT_MS = 30000 ∧
    (∀ (st : HTTPProxyState) (id : Nat),
      ((fireTimeout st id).2 = true ↔ ∃ e ∈ st.pending, e.id = id) ∧
      (∀ e ∈ (fireTimeout st id).1.pending, e.id ≠ id) ∧
      (∀ e ∈ st.pending, e.id ≠ id → e ∈ (fireTimeout st id).1.pending)) := by
  refine ⟨?_, rfl, ?_⟩
  · intro st path init sok now h
    cases sok with
    | true => simp [fetchStep]
    | false =>
      unfold fetchStep
      simp only [Bool.not_true, if_neg, Bool.not_false, if_pos, cond_false, cond_true]
      rw [List.filter_append, filter_ne_of_wf st.pending st.nextRequestId h]
      simp
  · intro st id
    refine ⟨?_, ?_, ?_⟩
    · simp [fireTimeout, List.any_eq_true, beq_iff_eq]
    · intro e he
      simp only [fireTimeout, List.mem_filter, bne_iff_ne, ne_eq, decide_eq_true_eq] at he
      exact he.2
    · intro e he hne
      simp only [fireTimeout, List.mem_filter, bne_iff_ne, ne_eq, decide_eq_true_eq]
      exact ⟨he, hne⟩

/-- Witness for C6: a fetch on the fresh proxy at time 5 registers
deadline 30005; firing the timer for id 1 on that state removes the
entry and reports a live rejection. -/
theorem request_timeout_semantics_witness :
    (fetchStep initialProxyState [47] ⟨[71, 69, 84], [123, 125], []⟩ true true 5).1.pending =
      [⟨1, 5 + REQUEST_TIMEOUT_MS⟩] ∧
    ((fireTimeout ⟨2, [⟨1, 30005⟩]⟩ 1).2 = true ↔ ∃ e ∈ [(⟨1, 30005⟩ : PendingEntry)], e.id = 1) :=
  ⟨request_timeout_semantics.1 initialProxyState [47] ⟨[71, 69, 84], [123, 125], []⟩ true 5
     (by decide),
   (request_timeout_semantics.2.2 ⟨2, [⟨1, 30005⟩]⟩ 1).1⟩

/-- Claim C3: the transport-death cleanup of `useWebRTC` (stop polling,
close the WS sub-connections, disconnect the manager and the relay
client) never reaches `HTTPProxy.clearPending` — no call site for it
exists in the repository — so a pending request survives transport
death untouched and is only failed later by its own 30 s timer.  The
second conjunct evaluates the uncalled `clearPending` at the same
state: it would have emptied the map and rejected request 1 with the
ConnectionClosed error. -/
theorem pending_survives_transport_close :
    (useWebRTCCleanup ⟨⟨2, [⟨1, 30000⟩]⟩, [1], true, true, false⟩).proxy.pending =
      [⟨1, 30000⟩] ∧
    clearPending ⟨2, [⟨1, 30000⟩]⟩ = (⟨2, []⟩, [1]) := by decide

theorem fetchStep_allocates (st : HTTPProxyState) (path : List Nat) (init : RequestInitModel)
    (topen sok : Bool) (now : Nat) :
    (fetchStep st path init topen sok now).2.1 = st.nextRequestId ∧
    (fetchStep st path init topen sok now).1.nextRequestId = st.nextRequestId + 1 := by
  cases topen <;> cases sok <;> simp [fetchStep]

theorem mem_fetchStep_pending (st : HTTPProxyState) (path : List Nat) (init : RequestInitModel)
    (topen sok : Bool) (now : Nat) (e : PendingEntry) :
    e ∈ (fetchStep st path init topen sok now).1.pending →
    e ∈ st.pending ∨ e = ⟨st.nextRequestId, now + REQUEST_TIMEOUT_MS⟩ := by
  cases topen <;> cases sok <;>
    simp [fetchStep, List.mem_filter, List.mem_append] <;> tauto

theorem mem_handleResponseStep (st : HTTPProxyState) (buffer : List Nat) (e : PendingEntry) :
    e ∈ (handleResponseStep st buffer).pending → e ∈ st.pending := by
  unfold handleResponseStep
  cases hd : deserializeResponse buffer with
  | error err => simp
  | ok frame =>
    dsimp only
    split
    · simp only [List.mem_filter]
      exact fun h => h.1
    · exact id

theorem nextRequestId_handleResponseStep (st : HTTPProxyState) (buffer : List Nat) :
    (handleResponseStep st buffer).nextRequestId = st.nextRequestId := by
  unfold handleResponseStep
  cases hd : deserializeResponse buffer with
  | error err => rfl
  | ok frame =>
    dsimp only
    split <;> rfl

theorem wf_applyOp (st : HTTPProxyState) (op : ProxyOp) (h : WFProxy st) :
    WFProxy (applyOp st op).1 := by
  cases op with
  | fetchOp path init topen sok now =>
    intro e he
    rw [show (applyOp st (.fetchOp path init topen sok now)).1 =
        (fetchStep st path init topen sok now).1 from rfl] at he ⊢
    rw [(fetchStep_allocates st path init topen sok now).2]
    rcases mem_fetchStep_pending st path init topen sok now e he with h1 | h2
    · exact Nat.lt_succ_of_lt (h e h1)
    · subst h2
      exact Nat.lt_succ_self _
  | responseOp buffer =>
    intro e he
    rw [show (applyOp st (.responseOp buffer)).1 = handleResponseStep st buffer from rfl] at he ⊢
    rw [nextRequestId_handleResponseStep]
    exact h e (mem_handleResponseStep st buffer e he)
  | timeoutOp id =>
    intro e he
    simp only [applyOp, fireTimeout, List.mem_filter] at he
    exact h e he.1
  | clearOp =>
    intro e he
    simp only [applyOp, clearPending, List.not_mem_nil] at he
  | setTransportOp => exact h

theorem runOps_allocated (ops : List ProxyOp) :
    ∀ st : HTTPProxyState, (runOps st ops).2 = List.range' st.nextRequestId (countFetches ops) := by
  induction ops with
  | nil => intro st; simp [runOps, countFetches]
  | cons op ops ih =>
    intro st
    cases op with
    | fetchOp path init topen sok now =>
      have h1 : (applyOp st (.fetchOp path init topen sok now)).2 = [st.nextRequestId] := by
        simp [applyOp, (fetchStep_allocates st path init topen sok now).1]
      have h2 : (applyOp st (.fetchOp path init topen sok now)).1.nextRequestId =
          st.nextRequestId + 1 := (fetchStep_allocates st path init topen sok now).2
      simp [runOps, h1, ih, h2, countFetches, List.range'_succ]
    | responseOp buffer =>
      simp [runOps, applyOp, ih, countFetches, nextRequestId_handleResponseStep]
    | timeoutOp id =>
      simp [runOps, applyOp, ih, countFetches, fireTimeout]
    | clearOp =>
      simp [runOps, applyOp, ih, countFetches, clearPending]
    | setTransportOp =>
      simp [runOps, applyOp, ih, countFetches]

/-- Claim C4: on a fresh transport the ids handed out by successive
`fetch` calls are exactly 1, 2, 3, … in order — strictly increasing,
starting at 1 — whatever responses, timer firings, `clearPending` calls
or transport swaps are interleaved (none of which touches the counter);
a freshly allocated id never collides with an id still pending; and
every operation preserves the invariant that pending ids are below the
counter. -/
theorem request_id_monotonic :
    (∀ ops : List ProxyOp, (runOps initialProxyState ops).2 = List.range' 1 (countFetches ops)) ∧
    (∀ ops : List ProxyOp, List.Pairwise (· < ·) (runOps initialProxyState ops).2) ∧
    (∀ (st : HTTPProxyState) (path : List Nat) (init : RequestInitModel)
       (topen sok : Bool) (now : Nat), WFProxy st →
       ∀ e ∈ st.pending, e.id ≠ (fetchStep st path init topen sok now).2.1) ∧
    (∀ (st : HTTPProxyState) (op : ProxyOp), WFProxy st → WFProxy (applyOp st op).1) := by
  refine ⟨?_, ?_, ?_, ?_⟩
  · intro ops
    exact runOps_allocated ops initialProxyState
  · intro ops
    rw [runOps_allocated ops initialProxyState]
    exact List.pairwise_lt_range' _ _
  · intro st path init topen sok now h e he
    rw [(fetchStep_allocates st path init topen sok now).1]
    exact Nat.ne_of_lt (h e he)
  · exact wf_applyOp

/-- Witness for C4: with id 1 still pending and counter 2, the next
fetch allocates id 2 ≠ 1, and clearing preserves the invariant. -/
theorem request_id_monotonic_witness :
    (⟨1, 30000⟩ : PendingEntry).id ≠
      (fetchStep ⟨2, [⟨1, 30000⟩]⟩ [47] ⟨[71, 69, 84], [123, 125], []⟩ true true 0).2.1 ∧
    WFProxy (applyOp ⟨2, [⟨1, 30000⟩]⟩ .clearOp).1 :=
  ⟨request_id_monotonic.2.2.1 ⟨2, [⟨1, 30000⟩]⟩ [47] ⟨[71, 69, 84], [123, 125], []⟩
     true true 0 (by decide) ⟨1, 30000⟩ (by decide),
   request_id_monotonic.2.2.2 ⟨2, [⟨1, 30000⟩]⟩ .clearOp (by decide)⟩

/-- Claim C8: a WebSocket URL whose pathname contains '/signal' is
never proxied — the intercepted constructor hands back a native
WebSocket, touches no proxy-manager state and sends no WS_CONNECT frame
— while a URL the rules select for proxying (with the tunnel channel
open) yields a proxied socket whose freshly allocated connection id is
not already tracked, registers it, and sends exactly one WS_CONNECT
frame carrying that id. -/
theorem websocket_intercept_exempts_signal :
    (∀ (page : PageContext) (url : WSUrl) (mActive chOpen : Bool) (phj : List Nat)
       (st : WSProxyManagerState), hasSub signalPathSeg url.pathname = true →
      interceptConstruct page url mActive chOpen phj st = (.native, st, [])) ∧
    (∀ (page : PageContext) (url : WSUrl) (phj : List Nat) (st : WSProxyManagerState),
      shouldProxyWebSocket page url = true →
      (∀ c ∈ st.connections, c < st.nextConnectionId) →
      interceptConstruct page url true true phj st =
        (.proxied st.nextConnectionId,
         ⟨st.nextConnectionId + 1, st.connections ++ [st.nextConnectionId]⟩,
         [⟨st.nextConnectionId, url.urlBytes, phj⟩]) ∧
      st.nextConnectionId ∉ st.connections) := by
  constructor
  · intro page url mActive chOpen phj st h
    have hsp : shouldProxyWebSocket page url = false := by
      simp [shouldProxyWebSocket, h]
    simp [interceptConstruct, hsp]
  · intro page url phj st hp hwf
    refine ⟨by simp [interceptConstruct, hp], fun hmem => ?_⟩
    exact absurd (hwf _ hmem) (lt_irrefl _)

/-- Witness for C8: `ws://signal.example/signal?token=…` (pathname
'/signal') yields a native socket and no frame; `ws://localhost:3000/ws`
with a `client` parameter yields connection id 1 and one WS_CONNECT
frame carrying id 1. -/
theorem websocket_intercept_exempts_signal_witness :
    interceptConstruct ⟨none⟩ ⟨"/signal".toList, false, []⟩ true true [123, 125] ⟨1, []⟩ =
      (.native, ⟨1, []⟩, []) ∧
    (interceptConstruct ⟨none⟩ ⟨"/ws".toList, true, [119, 115]⟩ true true [123, 125] ⟨1, []⟩ =
      (.proxied 1, ⟨2, [1]⟩, [⟨1, [119, 115], [123, 125]⟩]) ∧
     (1 : Nat) ∉ ([] : List Nat)) :=
  ⟨websocket_intercept_exempts_signal.1 ⟨none⟩ ⟨"/signal".toList, false, []⟩ true true
     [123, 125] ⟨1, []⟩ (by decide),
   websocket_intercept_exempts_signal.2 ⟨none⟩ ⟨"/ws".toList, true, [119, 115]⟩
     [123, 125] ⟨1, []⟩ (by decide) (by decide)⟩

/-- Claim C9 counterexample: `close(1000, '')` on an open proxied
sub-connection leaves readyState CLOSED, not CLOSING — the source sets
CLOSING but then immediately invokes its own `handleClose` ("Transition
to CLOSED immediately (server will acknowledge)"), so the state
observable after `close` returns is `closed`, refuting "transitions the
local state to closing (not directly to closed)". -/
theorem ws_close_not_closing_counterexample :
    (ProxiedWebSocket.close ⟨7, .OPEN⟩ true 1000 []).1.readyState = ProxiedWSState.CLOSED ∧
    ProxiedWSState.CLOSED ≠ ProxiedWSState.CLOSING := by decide

/-- Claim C9 (amended): `close(code, reason)` on an open sub-connection
with the channel up sends exactly one WS_CLOSE frame with that code and
reason and, passing through closing, immediately ends in closed, firing
the close event locally with the given code and reason (`wasClean` iff
code 1000); an incoming WS_CLOSE for the matching connection id sets
the state to closed and fires the close event with the propagated code
and reason. -/
theorem ws_close_semantics :
    (∀ (ws : ProxiedWebSocket) (code : Nat) (reason : List Nat), ws.readyState = .OPEN →
      ProxiedWebSocket.close ws true code reason =
        ({ ws with readyState := .CLOSED },
         [serializeWSClose ⟨ws.connectionId, code, reason⟩],
         [.closeEvent code reason (code == 1000)])) ∧
    (∀ (ws : ProxiedWebSocket) (frame : WSCloseFrame), frame.connectionId = ws.connectionId →
      ws.handleClose frame =
        ({ ws with readyState := .CLOSED },
         [.closeEvent frame.closeCode frame.reason (frame.closeCode == 1000)])) := by
  constructor
  · intro ws code reason h
    simp [ProxiedWebSocket.close, ProxiedWebSocket.handleClose, h]
  · intro ws frame h
    simp [ProxiedWebSocket.handleClose, h]

/-- Witness for C9: a clean close of open connection 3 and an incoming
1001 close for connection 4. -/
theorem ws_close_semantics_witness :
    ProxiedWebSocket.close ⟨3, .OPEN⟩ true 1000 [] =
      (⟨3, .CLOSED⟩, [serializeWSClose ⟨3, 1000, []⟩], [.closeEvent 1000 [] true]) ∧
    ProxiedWebSocket.handleClose ⟨4, .OPEN⟩ ⟨4, 1001, [98]⟩ =
      (⟨4, .CLOSED⟩, [.closeEvent 1001 [98] false]) :=
  ⟨ws_close_semantics.1 ⟨3, .OPEN⟩ 1000 [] rfl,
   ws_close_semantics.2 ⟨4, .OPEN⟩ ⟨4, 1001, [98]⟩ rfl⟩

theorem fallback_request_precedes_dial (d t : String) (ack : Option (Nat × AckStatus))
    (rdial : Bool) : ConnectRequestPrecedesRelayDial (fallbackToRelay d t ack rdial) := by
  intro n sid h
  simp only [fallbackToRelay, generateSessionId] at h
  rcases haw : awaitConnectAck ack with _ | s
  · rw [haw] at h
    rcases n with _ | _ | _ | n <;> simp at h
  · rw [haw] at h
    cases s with
    | failed =>
      rcases n with _ | _ | _ | n <;> simp at h
    | connecting | connected =>
      cases rdial with
      | false =>
        rcases n with _ | _ | _ | _ | _ | _ | n <;> simp at h
        · subst h
          exact ⟨1, by omega, ⟨t, .relay, some (d ++ "-" ++ t)⟩,
            by simp [fallbackToRelay, generateSessionId, haw], rfl, rfl⟩
      | true =>
        rcases n with _ | _ | _ | _ | _ | _ | _ | _ | n <;> simp at h
        · subst h
          exact ⟨1, by omega, ⟨t, .relay, some (d ++ "-" ++ t)⟩,
            by simp [fallbackToRelay, generateSessionId, haw], rfl, rfl⟩

theorem connect_without_rtc_precedes_dial (d t : String) (ack : Option (Nat × AckStatus))
    (rdial : Bool) : ConnectRequestPrecedesRelayDial (connectWithoutRTC d t ack rdial) := by
  intro n sid h
  rcases n with _ | _ | n
  · simp [connectWithoutRTC] at h
  · simp [connectWithoutRTC] at h
  · have h' : (fallbackToRelay d t ack rdial).get? n = some (.openRelaySocket sid) := by
      simpa [connectWithoutRTC] using h
    obtain ⟨m, hm, msg, hmsg, hpref, hsid⟩ := fallback_request_precedes_dial d t ack rdial n sid h'
    exact ⟨m + 2, by omega, msg, by simpa [connectWithoutRTC] using hmsg, hpref, hsid⟩

/-- Claim C2 counterexample: with the connect-ack timing out, the
fallback trace records the error but contains no transition of the
connection state to `closed` (the code leaves the state as it was),
refuting "on timeout … it transitions to closed"; the relay socket is
indeed not dialled. -/
theorem fallback_no_closed_transition_counterexample :
    HookAction.setConnState ConnectionState.closed ∉ fallbackToRelay "b" "h" none true ∧
    HookAction.openRelaySocket "b-h" ∉ fallbackToRelay "b" "h" none true := by decide

/-- Claim C2 (amended): the third consecutive WebRTC failure (and not
an earlier one) fires the relay fallback; the fallback — also on the
no-RTCPeerConnection path — always sends a `connect-request` with
`preferred_transport=relay` and session id
`{browser_device_id}-{target_device_id}` through signaling before any
dial of the relay socket; the relay socket is dialled only when a
connect-ack with status `connecting` or `connected` arrived within the
30 s window; on timeout or status `failed` the error is recorded, no
relay socket is opened, and no connection-state transition (in
particular none to `closed`) is performed; an ack arriving at or after
30000 ms counts as a timeout. -/
theorem relay_fallback_protocol :
    (∀ c : FallbackCtl, (onStateChangeFailure c .failed).2 = true ↔
      (c.isRelayFallback = false ∧ 3 ≤ c.failureCount + 1)) ∧
    (onStateChangeFailure ⟨0, false⟩ .failed = (⟨1, false⟩, false) ∧
     onStateChangeFailure ⟨1, false⟩ .failed = (⟨2, false⟩, false) ∧
     onStateChangeFailure ⟨2, false⟩ .failed = (⟨3, true⟩, true)) ∧
    (∀ d t ack rdial, ConnectRequestPrecedesRelayDial (fallbackToRelay d t ack rdial)) ∧
    (∀ d t ack rdial, ConnectRequestPrecedesRelayDial (connectWithoutRTC d t ack rdial)) ∧
    (∀ d t ack rdial sid, HookAction.openRelaySocket sid ∈ fallbackToRelay d t ack rdial →
      sid = generateSessionId d t ∧ ∃ s, awaitConnectAck ack = some s ∧ s ≠ AckStatus.failed) ∧
    (∀ d t rdial ack, awaitConnectAck ack = none ∨ awaitConnectAck ack = some .failed →
      (∀ sid, HookAction.openRelaySocket sid ∉ fallbackToRelay d t ack rdial) ∧
      HookAction.setErrorAction ∈ fallbackToRelay d t ack rdial ∧
      (∀ s, HookAction.setConnState s ∉ fallbackToRelay d t ack rdial)) ∧
    (∀ (t : Nat) (s : AckStatus), CONNECT_ACK_TIMEOUT_MS ≤ t →
      awaitConnectAck (some (t, s)) = none) ∧
    (∀ s : AckStatus, s ≠ .failed ↔ (s = .connecting ∨ s = .connected)) := by
  refine ⟨?_, by refine ⟨rfl, rfl, rfl⟩, fallback_request_precedes_dial,
    connect_without_rtc_precedes_dial, ?_, ?_, ?_, ?_⟩
  · rintro ⟨fc, irf⟩
    cases irf with
    | true => simp [onStateChangeFailure]
    | false =>
      by_cases hc : fc + 1 ≥ 3
      · simp [onStateChangeFailure, hc]
      · simp [onStateChangeFailure, hc]
  · intro d t ack rdial sid h
    simp only [fallbackToRelay, generateSessionId] at h
    rcases haw : awaitConnectAck ack with _ | s
    · rw [haw] at h
      simp at h
    · rw [haw] at h
      cases s with
      | failed => simp at h
      | connecting =>
        cases rdial <;> simp at h <;>
          exact ⟨by simpa [generateSessionId] using h, .connecting, rfl, by decide⟩
      | connected =>
        cases rdial <;> simp at h <;>
          exact ⟨by simpa [generateSessionId] using h, .connected, rfl, by decide⟩
  · intro d t rdial ack h
    rcases h with h | h <;>
      refine ⟨fun sid => ?_, ?_, fun s => ?_⟩ <;> simp [fallbackToRelay, h]
  · intro t s h
    simp only [awaitConnectAck]
    rw [if_neg]
    omega
  · intro s
    cases s <;> simp

/-- Witness for C2: the third failure triggers the fallback; an ack at
exactly 30000 ms is a timeout; with the ack timed out the trace records
the error; a dial that did happen names the computed session id and an
accepted status. -/
theorem relay_fallback_protocol_witness :
    (onStateChangeFailure ⟨2, false⟩ .failed).2 = true ∧
    awaitConnectAck (some (30000, .connected)) = none ∧
    HookAction.setErrorAction ∈ fallbackToRelay "b" "h" (some (40000, .connected)) true ∧
    ("b-h" = generateSessionId "b" "h" ∧
      ∃ s, awaitConnectAck (some (3, .connected)) = some s ∧ s ≠ AckStatus.failed) :=
  ⟨(relay_fallback_protocol.1 ⟨2, false⟩).2 ⟨rfl, by decide⟩,
   relay_fallback_protocol.2.2.2.2.2.2.1 30000 .connected (by decide),
   (relay_fallback_protocol.2.2.2.2.2.1 "b" "h" true (some (40000, .connected))
     (Or.inl (by decide))).2.1,
   relay_fallback_protocol.2.2.2.2.1 "b" "h" (some (3, .connected)) true "b-h" (by decide)⟩

end LemTunnel
